import Mathlib

/-!
Shallow embedding of `src/app.py`: a Flask backend that, at startup, runs
`git pull` once with defensive logging, then serves static files and a
JSON status endpoint.

Modelling conventions:
* `print` calls are modelled by `doPrint`, which threads a `SysState`
  (a call counter, the accumulated log, and instrumentation events) and
  consults a fault oracle `faults : Nat → Bool` telling whether the n-th
  print call of the process raises an exception.  A raised print
  exception is an ordinary `Exception` (not `FileNotFoundError`), so in
  the Python code it is caught by the nearest enclosing
  `except Exception` handler; exceptions escaping an `except` clause
  propagate outward.  The Boolean returned alongside the state is
  `true` for normal return, `false` for a propagating exception.
* The `subprocess.run(['git','pull'], ...)` call site is recorded as
  `gitPullCall`; its runtime outcome is abstracted by a function
  `runGit : SubprocessCall → PullOutcome` (exit code with captured
  output, `FileNotFoundError`, or another unexpected exception).
* Interpolated exception details (`str(log_ex)`, `type(e).__name__`) in
  messages are rendered with the fixed placeholder `exnMsg`, since the
  fault oracle carries no message; control flow never depends on them.
* Python's `int(...)` applied to the `PORT` string is modelled by
  `pythonInt` (ASCII whitespace stripping, optional sign, digits with
  single underscores between digits).
-/

namespace App

/-- ASCII whitespace stripped by Python's `int(str)` conversion. -/
def isPyWs (c : Char) : Bool :=
  c = ' ' || c = '\t' || c = '\n' || c = '\r' || c = '\x0b' || c = '\x0c'

/-- Digit run of a Python integer literal after the first digit: digits,
with single underscores allowed only between digits. -/
def digitsCore : List Char → Nat → Option Nat
  | [], acc => some acc
  | '_' :: c :: rest, acc =>
      if c.isDigit then digitsCore rest (acc * 10 + (c.toNat - 48)) else none
  | ['_'], _ => none
  | c :: rest, acc =>
      if c.isDigit then digitsCore rest (acc * 10 + (c.toNat - 48)) else none

/-- Nonempty digit run, first character must be a digit. -/
def parseDigits : List Char → Option Nat
  | [] => none
  | c :: rest => if c.isDigit then digitsCore rest (c.toNat - 48) else none

/-- Sign handling of Python's `int(str)`. -/
def pythonIntCore : List Char → Option Int
  | '+' :: rest => (parseDigits rest).map Int.ofNat
  | '-' :: rest => (parseDigits rest).map (fun n => -(n : Int))
  | rest => (parseDigits rest).map Int.ofNat

/-- Python's `int(s)` for a string `s`: `some n` on success, `none` when
`int` raises `ValueError`. -/
def pythonInt (s : String) : Option Int :=
  pythonIntCore (((s.toList.dropWhile isPyWs).reverse.dropWhile isPyWs).reverse)

/-- Argument record of a `subprocess.run` call site (`app.py` lines 17-23).
`timeout` is `none` when no `timeout=` keyword is passed (Python default:
wait without bound). -/
structure SubprocessCall where
  args : List String
  capture_output : Bool
  text : Bool
  check : Bool
  timeout : Option Nat
  errors : Option String
  deriving Repr, DecidableEq

/-- The exact `subprocess.run` invocation in `update_repository`
(`app.py` lines 17-23): `['git','pull']`, `capture_output=True`,
`text=True`, `check=False`, `errors='replace'`, and no `timeout`. -/
def gitPullCall : SubprocessCall :=
  { args := ["git", "pull"]
    capture_output := true
    text := true
    check := false
    timeout := none
    errors := some "replace" }

/-- `CompletedProcess` fields used by the code. -/
structure PullResult where
  returncode : Int
  stdout : String
  stderr : String
  deriving Repr, DecidableEq

/-- Outcome of the `subprocess.run` call: a completed process,
a `FileNotFoundError` (git binary missing), or any other exception
(described by a string). -/
inductive PullOutcome where
  | completed (r : PullResult)
  | fileNotFound
  | otherError (desc : String)
  deriving Repr, DecidableEq

/-- Instrumentation events marking control-flow milestones:
entry into `update_repository`, its normal return, and the
`app.run(...)` call that starts serving requests. -/
inductive Event where
  | updateStart
  | updateDone
  | serve
  deriving Repr, DecidableEq

/-- Process state threaded through the model: number of `print` calls
made so far, the log (stdout and stderr merged, in order), and the
instrumentation events. -/
structure SysState where
  calls : Nat
  log : List String
  events : List Event
  deriving Repr, DecidableEq

def initState : SysState := ⟨0, [], []⟩

/-- One `print(...)` call: consult the fault oracle on the current call
index; on success append the message to the log.  The Boolean is `false`
when the print raised. -/
def doPrint (faults : Nat → Bool) (msg : String) (s : SysState) : SysState × Bool :=
  if faults s.calls then ({ s with calls := s.calls + 1 }, false)
  else ({ s with calls := s.calls + 1, log := s.log ++ [msg] }, true)

def emit (ev : Event) (s : SysState) : SysState :=
  { s with events := s.events ++ [ev] }

/-- Placeholder for interpolated exception details in log messages. -/
def exnMsg : String := "print failed"

def msgAttempt : String := "Attempting to pull latest changes from git..."

def msgSuccess : String := "Git pull successful."

def msgSuccessOut (out : String) : String := "Git pull output:\n" ++ out

def msgSuccessLogErr : String :=
  "ERROR: Git pull was successful, but an error occurred while logging success details: "
    ++ exnMsg

def msgFail (rc : Int) : String :=
  "Git pull command failed with exit status " ++ toString rc ++ "."

def msgFailErr (e : String) : String := "Git pull error output (stderr):\n" ++ e

def msgFailOut (o : String) : String := "Git pull output (stdout on failure):\n" ++ o

def msgFailLogErr (rc : Int) : String :=
  "ERROR: Git pull failed (exit code " ++ toString rc
    ++ "), and an error occurred while logging details: " ++ exnMsg

def msgGitNotFound : String :=
  "Git command not found. Make sure git is installed and in PATH. Skipping git pull."

def msgGitNotFoundLogErr : String :=
  "ERROR: Failed to log Git command not found (FileNotFoundError): " ++ exnMsg

def msgUnexpected (desc : String) : String :=
  "An unexpected error occurred during git pull: " ++ desc

def msgUnexpectedLogErr (desc : String) : String :=
  "ERROR: An unexpected error (" ++ desc
    ++ ") occurred during git pull, AND logging that error also failed: " ++ exnMsg

/-- `except FileNotFoundError` handler (`app.py` lines 44-48): log the
warning; if that print raises, log a fallback; if the fallback raises
too, the exception propagates out of `update_repository`. -/
def handleFNF (faults : Nat → Bool) (s : SysState) : SysState × Bool :=
  let p1 := doPrint faults msgGitNotFound s
  if p1.2 then (p1.1, true)
  else doPrint faults msgGitNotFoundLogErr p1.1

/-- `except Exception as e` handler (`app.py` lines 49-54): log the
unexpected error; if that print raises, log a fallback; if the fallback
raises too, the exception propagates out of `update_repository`. -/
def handleGeneric (faults : Nat → Bool) (desc : String) (s : SysState) : SysState × Bool :=
  let p1 := doPrint faults (msgUnexpected desc) s
  if p1.2 then (p1.1, true)
  else doPrint faults (msgUnexpectedLogErr desc) p1.1

/-- Inner `except` of the success branch (`app.py` lines 29-30): a print
exception escaping this handler is caught by the outer
`except Exception` handler. -/
def successLogFallback (faults : Nat → Bool) (s : SysState) : SysState × Bool :=
  let p1 := doPrint faults msgSuccessLogErr s
  if p1.2 then (p1.1, true)
  else handleGeneric faults exnMsg p1.1

/-- Inner `except` of the failure branch (`app.py` lines 41-42). -/
def failLogFallback (faults : Nat → Bool) (rc : Int) (s : SysState) : SysState × Bool :=
  let p1 := doPrint faults (msgFailLogErr rc) s
  if p1.2 then (p1.1, true)
  else handleGeneric faults exnMsg p1.1

/-- Failure branch, stderr echo (`app.py` lines 36-37). -/
def failStdoutStep (faults : Nat → Bool) (r : PullResult) (s : SysState) : SysState × Bool :=
  if r.stdout ≠ "" then
    let p1 := doPrint faults (msgFailOut r.stdout) s
    if p1.2 then (p1.1, true) else failLogFallback faults r.returncode p1.1
  else (s, true)

/-- Failure branch, stdout echo (`app.py` lines 39-40). -/
def failStderrStep (faults : Nat → Bool) (r : PullResult) (s : SysState) : SysState × Bool :=
  if r.stderr ≠ "" then
    let p1 := doPrint faults (msgFailErr r.stderr) s
    if p1.2 then failStdoutStep faults r p1.1 else failLogFallback faults r.returncode p1.1
  else failStdoutStep faults r s

/-- Body of `update_repository` (`app.py` lines 13-54), without the
instrumentation events.  A raise of the initial print is caught by the
outer `except Exception` handler; `FileNotFoundError` and other
exceptions from `subprocess.run` go to their respective handlers. -/
def updateRepoBody (faults : Nat → Bool) (runGit : SubprocessCall → PullOutcome)
    (s : SysState) : SysState × Bool :=
  let p1 := doPrint faults msgAttempt s
  if !p1.2 then handleGeneric faults exnMsg p1.1
  else
    match runGit gitPullCall with
    | .fileNotFound => handleFNF faults p1.1
    | .otherError desc => handleGeneric faults desc p1.1
    | .completed r =>
      if r.returncode = 0 then
        let p2 := doPrint faults msgSuccess p1.1
        if !p2.2 then successLogFallback faults p2.1
        else if r.stdout ≠ "" then
          let p3 := doPrint faults (msgSuccessOut r.stdout) p2.1
          if !p3.2 then successLogFallback faults p3.1 else (p3.1, true)
        else (p2.1, true)
      else
        let p2 := doPrint faults (msgFail r.returncode) p1.1
        if !p2.2 then failLogFallback faults r.returncode p2.1
        else failStderrStep faults r p2.1

/-- `update_repository` (`app.py` lines 8-54), instrumented with an
`updateStart` event at entry and an `updateDone` event at normal
return. -/
def update_repository (faults : Nat → Bool) (runGit : SubprocessCall → PullOutcome)
    (s : SysState) : SysState × Bool :=
  let b := updateRepoBody faults runGit (emit .updateStart s)
  if b.2 then (emit .updateDone b.1, true) else (b.1, false)

def msgSetupStart : String := "Performing initial application setup..."

def msgSetupDone : String := "Initial setup complete. Application is ready."

def msgCritical1 : String :=
  "CRITICAL ERROR during initial application setup: " ++ exnMsg

def msgCritical2 : String := "Application may not function correctly or fully as expected."

def msgCritical3 : String :=
  "CRITICAL: Initial setup error occurred, AND logging it failed: " ++ exnMsg
    ++ ". Original error type: " ++ exnMsg

/-- Last-resort fallback of `_perform_initial_setup` (`app.py` line 77):
if this print raises, the exception propagates out of the function. -/
def setupCatchFallback (faults : Nat → Bool) (s : SysState) : SysState × Bool :=
  doPrint faults msgCritical3 s

/-- `except Exception` handler of `_perform_initial_setup`
(`app.py` lines 70-77). -/
def setupCatch (faults : Nat → Bool) (s : SysState) : SysState × Bool :=
  let p1 := doPrint faults msgCritical1 s
  if !p1.2 then setupCatchFallback faults p1.1
  else
    let p2 := doPrint faults msgCritical2 p1.1
    if !p2.2 then setupCatchFallback faults p2.1 else (p2.1, true)

/-- `_perform_initial_setup` (`app.py` lines 61-77). -/
def perform_initial_setup (faults : Nat → Bool) (runGit : SubprocessCall → PullOutcome)
    (s : SysState) : SysState × Bool :=
  let p1 := doPrint faults msgSetupStart s
  if !p1.2 then setupCatch faults p1.1
  else
    let u := update_repository faults runGit p1.1
    if !u.2 then setupCatch faults u.1
    else
      let p2 := doPrint faults msgSetupDone u.1
      if !p2.2 then setupCatch faults p2.1 else (p2.1, true)

/-- Outcome of running the `__main__` block: the process either reaches
`app.run(...)` on some port, or dies with a nonzero exit status from an
unhandled exception. -/
inductive StartupResult where
  | serves (port : Int) (s : SysState)
  | crashed (s : SysState)
  deriving Repr, DecidableEq

def msgWarnPort (v : String) : String :=
  "Warning: Invalid PORT value '" ++ v ++ "'. Defaulting to 9000."

def msgStarting (port : Int) : String :=
  "Starting Flask development server on host 0.0.0.0, port " ++ toString port ++ "..."

/-- The port `__main__` ends up configuring (`app.py` lines 112-119):
`int(os.environ.get('PORT', '9000'))`, falling back to `9000` when
`int` raises `ValueError`. -/
def configuredPort (env : Option String) : Int :=
  match pythonInt (env.getD "9000") with
  | some n => n
  | none => 9000

/-- The `__main__` block (`app.py` lines 106-125): initial setup, port
parsing with fallback warning, then `app.run`.  `env` is the value of
the `PORT` environment variable. -/
def pymain (faults : Nat → Bool) (runGit : SubprocessCall → PullOutcome)
    (env : Option String) : StartupResult :=
  let st := perform_initial_setup faults runGit initState
  if !st.2 then .crashed st.1
  else
    match pythonInt (env.getD "9000") with
    | some n =>
        let p1 := doPrint faults (msgStarting n) st.1
        if p1.2 then .serves n (emit .serve p1.1) else .crashed p1.1
    | none =>
        let p1 := doPrint faults (msgWarnPort (env.getD "9000")) st.1
        if !p1.2 then .crashed p1.1
        else
          let p2 := doPrint faults (msgStarting 9000) p1.1
          if p2.2 then .serves 9000 (emit .serve p2.1) else .crashed p2.1

/-- `true` when the process went on to serve HTTP requests. -/
def StartupResult.proceeds : StartupResult → Bool
  | .serves _ _ => true
  | .crashed _ => false

def StartupResult.log : StartupResult → List String
  | .serves _ s => s.log
  | .crashed s => s.log

def StartupResult.events : StartupResult → List Event
  | .serves _ s => s.events
  | .crashed s => s.events

def StartupResult.portOf : StartupResult → Option Int
  | .serves p _ => some p
  | .crashed _ => none

/-- A fault oracle under which no print ever raises. -/
def noFaults : Nat → Bool := fun _ => false

/-- A `runGit` behaviour: the pull completes successfully with no output. -/
def gitOk : SubprocessCall → PullOutcome := fun _ => .completed ⟨0, "", ""⟩

/-- HTTP response body: file contents from `send_from_directory`, or a
`jsonify(...)` object given by its key-value pairs. -/
inductive Body where
  | fileContent (content : String)
  | jsonObj (fields : List (String × String))
  deriving Repr, DecidableEq

/-- `serve_index` (`app.py` lines 80-90): `fs` maps a path to the file's
content when it exists.  The static folder is `'build'`. -/
def serve_index (fs : String → Option String) : Body × Nat :=
  match fs "build/index.html" with
  | none =>
      (.jsonObj [("error",
        "index.html not found in static folder ('build'). Make sure your frontend is built and placed correctly.")],
       404)
  | some c => (.fileContent c, 200)

def Body.hasKey (b : Body) (k : String) : Bool :=
  match b with
  | .jsonObj fields => fields.any (fun p => p.1 == k)
  | .fileContent _ => false

/-- Fields of the `/api/status` JSON response. -/
structure StatusBody where
  status : String
  port : String
  deriving Repr, DecidableEq

/-- `api_status` (`app.py` lines 97-104): reads
`os.environ.get('PORT', '9000')` at request time and returns it raw.
`env` is the value of the `PORT` environment variable when the request
is handled. -/
def api_status (env : Option String) : StatusBody × Nat :=
  ({ status := "Backend is running", port := env.getD "9000" }, 200)

end App

namespace App

/-! ### Helper lemmas -/

theorem failStdoutStep_noF (r : PullResult) (s : SysState) :
    (failStdoutStep noFaults r s).2 = true ∧
    (failStdoutStep noFaults r s).1.events = s.events := by
  by_cases ho : r.stdout = "" <;> simp [failStdoutStep, doPrint, noFaults, ho]

theorem failStderrStep_noF (r : PullResult) (s : SysState) :
    (failStderrStep noFaults r s).2 = true ∧
    (failStderrStep noFaults r s).1.events = s.events := by
  by_cases hs : r.stderr = "" <;> by_cases ho : r.stdout = "" <;>
    simp [failStderrStep, failStdoutStep, doPrint, noFaults, hs, ho]

theorem updateRepoBody_noF (runGit : SubprocessCall → PullOutcome) (s : SysState) :
    (updateRepoBody noFaults runGit s).2 = true ∧
    (updateRepoBody noFaults runGit s).1.events = s.events := by
  cases hg : runGit gitPullCall with
  | fileNotFound => simp [updateRepoBody, hg, handleFNF, doPrint, noFaults]
  | otherError d => simp [updateRepoBody, hg, handleGeneric, doPrint, noFaults]
  | completed r =>
      by_cases h0 : r.returncode = 0
      · by_cases ho : r.stdout = "" <;>
          simp [updateRepoBody, hg, doPrint, noFaults, h0, ho]
      · simp [updateRepoBody, hg, doPrint, noFaults, h0, failStderrStep_noF]

theorem update_repository_noF (runGit : SubprocessCall → PullOutcome) (s : SysState) :
    (update_repository noFaults runGit s).2 = true ∧
    (update_repository noFaults runGit s).1.events
      = s.events ++ [Event.updateStart, Event.updateDone] := by
  have h := updateRepoBody_noF runGit (emit Event.updateStart s)
  simp only [emit] at h
  simp [update_repository, emit, h.1, h.2]

theorem setup_noF (runGit : SubprocessCall → PullOutcome) (s : SysState) :
    (perform_initial_setup noFaults runGit s).2 = true ∧
    (perform_initial_setup noFaults runGit s).1.events
      = s.events ++ [Event.updateStart, Event.updateDone] := by
  have h := update_repository_noF runGit
    ({ s with calls := s.calls + 1, log := s.log ++ [msgSetupStart] })
  simp [perform_initial_setup, doPrint, noFaults, h.1, h.2]

end App

namespace App

/-! ### Concrete instances used by claim theorems -/

/-- Fault oracle: exactly the third print call (index 2) of the process
raises. -/
def faultsAt2 : Nat → Bool := fun n => n == 2

/-- Fault oracle: every print call from index 2 on raises. -/
def faultsFrom2 : Nat → Bool := fun n => decide (2 ≤ n)

/-- A static directory containing `index.html`. -/
def fsWithIndex : String → Option String :=
  fun p => if p = "build/index.html" then some "<html>hello</html>" else none

/-- An empty static directory. -/
def fsEmpty : String → Option String := fun _ => none

/-! ### Claim theorems -/

/-- C1 (counterexample): with an unexpected fault from the pull
operation (`otherError "boom"`) and a second fault raised by the print
that attempts to log it (print call 2), the process does not terminate:
the handler catches the second fault, logs the fallback message, and
startup proceeds to serve requests. -/
theorem c1_counterexample :
    (pymain faultsAt2 (fun _ => .otherError "boom") none).proceeds = true ∧
    msgUnexpectedLogErr "boom" ∈ (pymain faultsAt2 (fun _ => .otherError "boom") none).log := by
  decide

/-- C1 (amended): a second fault occurring while logging an unexpected
pull fault is caught and a fallback message is logged, and startup still
proceeds; the process terminates with a nonzero exit status only when
the fallback logging attempts (in `update_repository` and in
`_perform_initial_setup`) fault as well, as with `faultsFrom2`. -/
theorem c1_double_fault_swallowed (desc : String) :
    (pymain faultsAt2 (fun _ => .otherError desc) none).proceeds = true ∧
    (pymain faultsFrom2 (fun _ => .otherError desc) none).proceeds = false := by
  exact ⟨rfl, rfl⟩

/-- C2: the `subprocess.run(['git','pull'], ...)` call in
`update_repository` passes no `timeout` argument at all — in particular
not a 60-second bound — so the wait on the pull operation is unbounded
and no timeout warning path exists. -/
theorem c2_pull_has_no_timeout :
    gitPullCall.timeout = none ∧ ∀ t : Nat, gitPullCall.timeout ≠ some t := by
  exact ⟨rfl, fun t h => Option.noConfusion h⟩

/-- C3 (counterexample): with `PORT="abc"` the server falls back to
configured port 9000, but `/api/status` reports the raw string
`"abc"`, which does not match the configured port under either reading
(string rendering or integer parse). -/
theorem c3_counterexample :
    (api_status (some "abc")).2 = 200 ∧
    configuredPort (some "abc") = 9000 ∧
    (api_status (some "abc")).1.port ≠ toString (configuredPort (some "abc")) ∧
    pythonInt (api_status (some "abc")).1.port ≠ some (configuredPort (some "abc")) := by
  decide

/-- C3 (amended): `/api/status` always returns 200 with status
`"Backend is running"`; its port field is the raw `PORT` environment
string at request time (defaulting to `"9000"`), which agrees with the
configured port exactly when `PORT` parses as an integer — but not
after fallback from a malformed `PORT` value. -/
theorem c3_status_port_raw (env : Option String) :
    (api_status env).2 = 200 ∧
    (api_status env).1.status = "Backend is running" ∧
    (api_status env).1.port = env.getD "9000" ∧
    ∀ k : Int, pythonInt (env.getD "9000") = some k →
      configuredPort env = k ∧ pythonInt ((api_status env).1.port) = some k := by
  refine ⟨rfl, rfl, rfl, fun k hk => ⟨?_, ?_⟩⟩
  · simp [configuredPort, hk]
  · simpa [api_status] using hk

/-- C3 (witness for the amended theorem at `PORT="8080"`). -/
theorem c3_status_port_raw_witness :
    (api_status (some "8080")).2 = 200 ∧
    (api_status (some "8080")).1.port = "8080" ∧
    configuredPort (some "8080") = 8080 := by
  have h := c3_status_port_raw (some "8080")
  exact ⟨h.1, h.2.2.1, (h.2.2.2 8080 (by decide)).1⟩

/-- C6: when `index.html` exists in the static folder with content `c`,
`GET /` returns HTTP 200 with that content. -/
theorem c6_index_present (fs : String → Option String) (c : String)
    (h : fs "build/index.html" = some c) :
    serve_index fs = (.fileContent c, 200) := by
  unfold serve_index
  rw [h]

/-- C6 (witness): a concrete static directory containing `index.html`. -/
theorem c6_index_present_witness :
    serve_index fsWithIndex = (.fileContent "<html>hello</html>", 200) :=
  c6_index_present fsWithIndex "<html>hello</html>" (by decide)

/-- C7: when `index.html` is absent, `GET /` returns HTTP 404 with a
JSON body containing an `"error"` key — a response distinct from the
200 success path. -/
theorem c7_index_absent (fs : String → Option String)
    (h : fs "build/index.html" = none) :
    (serve_index fs).2 = 404 ∧
    (serve_index fs).1.hasKey "error" = true ∧
    (serve_index fs).2 ≠ 200 := by
  simp [serve_index, h, Body.hasKey]

/-- C7 (witness): the empty static directory. -/
theorem c7_index_absent_witness :
    (serve_index fsEmpty).2 = 404 ∧
    (serve_index fsEmpty).1.hasKey "error" = true ∧
    (serve_index fsEmpty).2 ≠ 200 :=
  c7_index_absent fsEmpty rfl

/-- C10: the `/api/status` handler is a function of the `PORT`
environment value at request time: it returns the raw string
(`"9000"` when unset) without integer validation — at
`PORT="not a number"` the reported value does not even parse as an
integer and differs from the port configured at startup (9000). -/
theorem c10_status_rereads_env :
    (∀ env : Option String,
      api_status env = ({ status := "Backend is running", port := env.getD "9000" }, 200)) ∧
    pythonInt (api_status (some "not a number")).1.port = none ∧
    (api_status (some "not a number")).1.port ≠ toString (configuredPort (some "not a number")) := by
  refine ⟨fun env => rfl, by decide, by decide⟩

end App

namespace App

/-- C4: for every nonzero exit code from the pull operation,
`update_repository` logs the failure message — echoing captured stderr
and stdout when nonempty — returns normally, and the process goes on to
serve HTTP requests. -/
theorem c4_nonzero_exit_continues (rc : Int) (out err : String) (env : Option String)
    (h : rc ≠ 0) :
    (pymain noFaults (fun _ => .completed ⟨rc, out, err⟩) env).proceeds = true ∧
    msgFail rc ∈ (pymain noFaults (fun _ => .completed ⟨rc, out, err⟩) env).log ∧
    (err ≠ "" → msgFailErr err ∈ (pymain noFaults (fun _ => .completed ⟨rc, out, err⟩) env).log) ∧
    (out ≠ "" → msgFailOut out ∈ (pymain noFaults (fun _ => .completed ⟨rc, out, err⟩) env).log) := by
  by_cases he : err = "" <;> by_cases ho : out = "" <;>
    cases hp : pythonInt (env.getD "9000") <;>
      simp [pymain, perform_initial_setup, update_repository, updateRepoBody,
        failStderrStep, failStdoutStep, doPrint, noFaults, emit, initState,
        StartupResult.proceeds, StartupResult.log, h, he, ho, hp]

/-- C4 (witness): exit code 1 with output `"out"` and error `"err"`. -/
theorem c4_nonzero_exit_continues_witness :
    (pymain noFaults (fun _ => .completed ⟨1, "out", "err"⟩) none).proceeds = true ∧
    msgFail 1 ∈ (pymain noFaults (fun _ => .completed ⟨1, "out", "err"⟩) none).log ∧
    msgFailErr "err" ∈ (pymain noFaults (fun _ => .completed ⟨1, "out", "err"⟩) none).log ∧
    msgFailOut "out" ∈ (pymain noFaults (fun _ => .completed ⟨1, "out", "err"⟩) none).log := by
  have h := c4_nonzero_exit_continues 1 "out" "err" none (by decide)
  exact ⟨h.1, h.2.1, h.2.2.1 (by decide), h.2.2.2 (by decide)⟩

/-- C5: when the `PORT` environment string does not parse as a Python
integer, `__main__` falls back to port 9000 and prints the warning; when
it parses as the integer `n`, `__main__` configures port `n`. -/
theorem c5_port_fallback (v : String) :
    (pythonInt v = none →
      configuredPort (some v) = 9000 ∧
      msgWarnPort v ∈ (pymain noFaults gitOk (some v)).log ∧
      (pymain noFaults gitOk (some v)).portOf = some 9000) ∧
    (∀ n : Int, pythonInt v = some n →
      configuredPort (some v) = n ∧
      (pymain noFaults gitOk (some v)).portOf = some n) := by
  have hs : perform_initial_setup noFaults gitOk initState =
      (⟨4, [msgSetupStart, msgAttempt, msgSuccess, msgSetupDone],
        [Event.updateStart, Event.updateDone]⟩, true) := rfl
  constructor
  · intro hv
    refine ⟨by simp [configuredPort, hv], ?_, ?_⟩ <;>
      simp [pymain, hs, hv, doPrint, noFaults, emit,
        StartupResult.log, StartupResult.portOf]
  · intro n hv
    refine ⟨by simp [configuredPort, hv], ?_⟩
    simp [pymain, hs, hv, doPrint, noFaults, emit, StartupResult.portOf]

/-- C5 (witness): `PORT="abc"` falls back to 9000 with the warning;
`PORT="8080"` is used as given. -/
theorem c5_port_fallback_witness :
    configuredPort (some "abc") = 9000 ∧
    msgWarnPort "abc" ∈ (pymain noFaults gitOk (some "abc")).log ∧
    configuredPort (some "8080") = 8080 ∧
    (pymain noFaults gitOk (some "8080")).portOf = some 8080 := by
  have h1 := (c5_port_fallback "abc").1 (by decide)
  have h2 := (c5_port_fallback "8080").2 8080 (by decide)
  exact ⟨h1.1, h1.2.1, h2.1, h2.2⟩

/-- C8: when the git binary is missing (`FileNotFoundError` from the
pull invocation), `update_repository` logs the tool-not-found warning,
swallows the error, and the process goes on to serve requests. -/
theorem c8_git_missing_swallowed (env : Option String) :
    (pymain noFaults (fun _ => .fileNotFound) env).proceeds = true ∧
    msgGitNotFound ∈ (pymain noFaults (fun _ => .fileNotFound) env).log := by
  have hs : perform_initial_setup noFaults (fun _ => .fileNotFound) initState =
      (⟨4, [msgSetupStart, msgAttempt, msgGitNotFound, msgSetupDone],
        [Event.updateStart, Event.updateDone]⟩, true) := rfl
  cases hp : pythonInt (env.getD "9000") <;>
    simp [pymain, hs, hp, doPrint, noFaults, emit,
      StartupResult.proceeds, StartupResult.log]

/-- C9: for every pull outcome and every `PORT` environment value, the
`__main__` control flow produces exactly the event sequence
`updateStart, updateDone, serve`: `update_repository` runs exactly once,
returns before `app.run` is reached, and is never invoked again. -/
theorem c9_update_runs_once_before_serve (runGit : SubprocessCall → PullOutcome)
    (env : Option String) :
    (pymain noFaults runGit env).events = [Event.updateStart, Event.updateDone, Event.serve] := by
  have hs := setup_noF runGit initState
  simp only [initState] at hs
  cases hp : pythonInt (env.getD "9000") <;>
    simp [pymain, hs.1, hs.2, hp, doPrint, noFaults, emit, initState,
      StartupResult.events]

end App
